import Mathlib

/-!
# Verification of the flapp simulation core (src/main.rs)

A shallow embedding of the per-frame simulation of the flapp arcade game:
actor physics, obstacle scrolling and recycling, collision/scoring, and the
pause/reset state machine.  Positions, velocities and times are modelled as
rationals; the engine `f32` values only enter through comparisons and
affine arithmetic here, so `ℚ` is a faithful carrier for the control flow.

Randomness (`thread_rng` draws in `generate_offset`) is modelled by passing
the raw `gen_range(-OBSTACLE_VERTICAL_OFFSET..OBSTACLE_VERTICAL_OFFSET)`
result in explicitly: one draw per obstacle pair at spawn, one shared draw
per frame in `update_obstacles`, exactly as the source calls the generator.

Presentation-only state (sprites, the pause-overlay text entities, the score
text, the bird visual rotation) is omitted: no simulation decision reads it.
-/

namespace Flapp

/-! ## Constants (from the `const` block of src/main.rs) -/

def WIN_X : ℚ := 1280
def WIN_Y : ℚ := 720
/-- `PIXEL_RATIO` in the source: the global sprite/world scale 4.5. -/
def PIXEL_SCALE : ℚ := 9 / 2
def FLAP_FORCE : ℚ := 400
/-- `VELOCITY_ROT_RATIO` in the source: 7.2 (presentation only). -/
def VEL_ROT_DIV : ℚ := 36 / 5
def GRAVITY : ℚ := 1600
def MERCY_ZONE : ℚ := 5
def OBSTACLE_AMOUNT : ℕ := 8
def OBSTACLE_WIDTH : ℚ := 32
def OBSTACLE_HEIGHT : ℚ := 144
def OBSTACLE_VERTICAL_OFFSET : ℚ := 30
def OBSTACLE_GAP : ℚ := 16
def OBSTACLE_SPACING : ℚ := 64
def OBSTACLE_SCROLL_SPEED : ℚ := 120

/-! ## Data model -/

/-- One obstacle (`Obstacle` component + its `Transform` translation).
`pipe_direction` is `+1` for the upper member of a pair, `-1` for the lower. -/
structure Obstacle where
  x : ℚ
  y : ℚ
  pipe_direction : ℚ
deriving Repr, DecidableEq

/-- The actor (`Bird` component + its `Transform`).  Its horizontal position
never changes in the source (only `translation.y` is written), so only the
vertical position is carried; the bird x is the constant `0` of
`Transform::IDENTITY`. -/
structure Bird where
  velocity : ℚ
  y : ℚ
deriving Repr, DecidableEq

/-- The simulation state: the optional live actor, the obstacle pool, the
`Score` resource, and the virtual-time pause flag (`Time<Virtual>`), which is
the run phase: paused ↔ not Playing. -/
structure GameState where
  bird : Option Bird
  obstacles : List Obstacle
  score : ℕ
  paused : Bool
deriving Repr, DecidableEq

/-! ## Spawning and the obstacle field -/

/-- `get_centered_pos`: `(OBSTACLE_HEIGHT / 2. + OBSTACLE_GAP) * PIXEL_RATIO`. -/
def get_centered_pos : ℚ := (OBSTACLE_HEIGHT / 2 + OBSTACLE_GAP) * PIXEL_SCALE

/-- `generate_offset`: scales a raw `gen_range(-30.0..30.0)` draw `d` by the
pixel ratio.  The draw itself is passed in explicitly. -/
def generate_offset (d : ℚ) : ℚ := d * PIXEL_SCALE

/-- `spawn_bird`: a fresh bird with zero velocity at `Transform::IDENTITY`
(vertical position 0). -/
def spawn_bird : Bird := ⟨0, 0⟩

/-- The two obstacles pair `i` contributes in `spawn_obstacles`: top member
(direction `+1`) at `get_centered_pos + y_offset`, bottom member (direction
`-1`) at `-get_centered_pos + y_offset`, both at
`window_width / 2 + OBSTACLE_SPACING * PIXEL_RATIO * i`. -/
def obstacle_pair (d window_width : ℚ) (i : ℕ) : List Obstacle :=
  let y_offset := generate_offset d
  let x_pos := window_width / 2 + OBSTACLE_SPACING * PIXEL_SCALE * (i : ℚ)
  [⟨x_pos, get_centered_pos + y_offset, 1⟩,
   ⟨x_pos, -get_centered_pos + y_offset, -1⟩]

/-- `spawn_obstacles`: for `i` in `0..OBSTACLE_AMOUNT`, draw one offset and
spawn the pair.  `draws i` is the raw random draw of iteration `i`. -/
def spawn_obstacles (draws : ℕ → ℚ) (window_width : ℚ) : List Obstacle :=
  (List.range OBSTACLE_AMOUNT).flatMap (fun i => obstacle_pair (draws i) window_width i)

/-- The per-obstacle body of the `update_obstacles` loop: scroll left by
`delta * OBSTACLE_SCROLL_SPEED`; if the right edge is past the left window
boundary, translate forward by `OBSTACLE_AMOUNT * OBSTACLE_SPACING *
PIXEL_RATIO` and re-seat vertically at
`get_centered_pos * pipe_direction + y_offset`. -/
def scroll_recycle (dt win_x y_offset : ℚ) (o : Obstacle) : Obstacle :=
  let x := o.x - dt * OBSTACLE_SCROLL_SPEED
  if x + OBSTACLE_WIDTH * PIXEL_SCALE / 2 < -win_x / 2 then
    { x := x + (OBSTACLE_AMOUNT : ℚ) * OBSTACLE_SPACING * PIXEL_SCALE
      y := get_centered_pos * o.pipe_direction + y_offset
      pipe_direction := o.pipe_direction }
  else
    { o with x := x }

/-- `update_obstacles`: one shared offset draw per frame (`draw` is the raw
`gen_range` result), then the scroll/recycle body over every obstacle. -/
def update_obstacles (dt win_x draw : ℚ) (obs : List Obstacle) : List Obstacle :=
  obs.map (scroll_recycle dt win_x (generate_offset draw))

/-! ## The bird update -/

/-- The scoring condition of the loop in `update_bird`:
`pipe.x - bird.x > 0 && pipe.x - bird.x < OBSTACLE_SCROLL_SPEED * delta
&& pipe.y > 0`. -/
def passes_check (dt bird_x : ℚ) (o : Obstacle) : Bool :=
  decide (o.x - bird_x > 0) &&
  decide (o.x - bird_x < OBSTACLE_SCROLL_SPEED * dt) &&
  decide (o.y > 0)

/-- The collision condition of the loop in `update_bird`:
`|pipe.y - bird.y| < (OBSTACLE_HEIGHT - MERCY_ZONE) * PIXEL_RATIO / 2 &&
 |pipe.x - bird.x| < (OBSTACLE_WIDTH - MERCY_ZONE) * PIXEL_RATIO / 2`. -/
def collision_check (bird_x bird_y : ℚ) (o : Obstacle) : Bool :=
  decide (|o.y - bird_y| < (OBSTACLE_HEIGHT - MERCY_ZONE) * PIXEL_SCALE / 2) &&
  decide (|o.x - bird_x| < (OBSTACLE_WIDTH - MERCY_ZONE) * PIXEL_SCALE / 2)

/-- The scoring/collision loop of `update_bird`: for each obstacle in order,
increment the score if the pass condition holds, then if the collision
condition holds set `dead` and `break`.  Returns the total increment and the
death flag. -/
def score_collide_loop (dt bird_x bird_y : ℚ) : List Obstacle → ℕ × Bool
  | [] => (0, false)
  | o :: rest =>
    let inc := if passes_check dt bird_x o then 1 else 0
    if collision_check bird_x bird_y o then (inc, true)
    else
      let p := score_collide_loop dt bird_x bird_y rest
      (inc + p.1, p.2)

/-- The physics step of `update_bird` while playing: on a flap edge the
velocity is overwritten with `FLAP_FORCE`, then
`velocity -= delta * GRAVITY` and `y += velocity * delta`. -/
def integrate (dt : ℚ) (flap : Bool) (b : Bird) : Bird :=
  let v := (if flap then FLAP_FORCE else b.velocity) - dt * GRAVITY
  ⟨v, b.y + v * dt⟩

/-- `reset_game`: zero the bird translation and velocity, zero the score,
despawn every obstacle and respawn the field with fresh draws. -/
def reset_game (draws : ℕ → ℚ) (win_x : ℚ) (s : GameState) : GameState :=
  { s with bird := some ⟨0, 0⟩
           score := 0
           obstacles := spawn_obstacles draws win_x }

/-- `update_bird`, the per-frame system.  `flap` is `keys.just_pressed(Space)`
(the edge-triggered input), `draws` the random draws a reset would consume,
`win_x`/`win_y` the `GameManager` window dimensions.

With a live bird and time not paused (`dead` starts `false`): integrate
physics; if the new position is at or below `-win_y / 2` the bird is dead,
otherwise run the scoring/collision loop; finally `if dead && !paused`
pause the virtual time.  With a live bird and time paused, a flap edge runs
`reset_game` and unpauses.  With no live bird, `dead` is `false`, so a
default bird is spawned unconditionally — the source `!dead` guard does not
consult the pause state. -/
def update_bird (dt : ℚ) (flap : Bool) (draws : ℕ → ℚ) (win_x win_y : ℚ)
    (s : GameState) : GameState :=
  match s.bird with
  | some bird =>
    if s.paused then
      if flap then { reset_game draws win_x s with paused := false }
      else s
    else
      let b := integrate dt flap bird
      if b.y ≤ -win_y / 2 then
        { s with bird := some b, paused := true }
      else
        let p := score_collide_loop dt 0 b.y s.obstacles
        { s with bird := some b, score := s.score + p.1, paused := p.2 }
  | none => { s with bird := some spawn_bird }

/-- `show_pause_screen`: while the virtual time is paused, despawn the live
bird (the pause-overlay text it also spawns is presentation-only and not
modelled); otherwise it only clears overlay text. -/
def show_pause_screen (s : GameState) : GameState :=
  if s.paused then { s with bird := none } else s

/-! ## Spec-side predicates -/

/-- The scoring condition of the spec, stated on the direction flag: the obstacle
is strictly ahead of the actor, crossed the actor line this frame, and is
the upper member of its pair. -/
def upper_crossing (dt bird_x : ℚ) (o : Obstacle) : Prop :=
  o.x - bird_x > 0 ∧ o.x - bird_x < OBSTACLE_SCROLL_SPEED * dt ∧ o.pipe_direction = 1

instance (dt bird_x : ℚ) (o : Obstacle) : Decidable (upper_crossing dt bird_x o) := by
  unfold upper_crossing; infer_instance

/-- The sign invariant tying vertical position to the direction flag: upper
members sit strictly above 0, lower members strictly below. -/
def signOK (o : Obstacle) : Prop :=
  (o.pipe_direction = 1 → o.y > 0) ∧ (o.pipe_direction = -1 → o.y < 0)

/-- Every obstacle the program creates carries direction `+1` or `-1`. -/
def dirOK (o : Obstacle) : Prop :=
  o.pipe_direction = 1 ∨ o.pipe_direction = -1

instance (o : Obstacle) : Decidable (signOK o) := by
  unfold signOK; infer_instance

instance (o : Obstacle) : Decidable (dirOK o) := by
  unfold dirOK; infer_instance

/-! ## Helper lemmas -/

/-- Under the sign invariant, the `pipe.y > 0` test of the loop agrees with being
the upper member of the pair. -/
theorem y_pos_iff_upper {o : Obstacle} (hs : signOK o) (hd : dirOK o) :
    0 < o.y ↔ o.pipe_direction = 1 := by
  constructor
  · intro hy
    rcases hd with h1 | h1
    · exact h1
    · exact absurd (hs.2 h1) (by linarith)
  · intro h1
    exact hs.1 h1

theorem passes_check_eq_upper {dt : ℚ} {o : Obstacle} (hs : signOK o) (hd : dirOK o) :
    passes_check dt 0 o = decide (upper_crossing dt 0 o) := by
  have h : decide (0 < o.y) = decide (o.pipe_direction = 1) :=
    decide_eq_decide.mpr (y_pos_iff_upper hs hd)
  simp only [passes_check, upper_crossing, Bool.decide_and, gt_iff_lt, Bool.and_assoc, h]

/-- If no obstacle collides, the scoring/collision loop runs to the end,
counts every obstacle satisfying the pass condition, and reports no death. -/
theorem score_collide_loop_of_no_collision {dt bx bY : ℚ} {l : List Obstacle}
    (h : ∀ o ∈ l, collision_check bx bY o = false) :
    score_collide_loop dt bx bY l = (l.countP (passes_check dt bx), false) := by
  induction l with
  | nil => simp [score_collide_loop]
  | cons o rest ih =>
    have ho := h o (List.mem_cons_self o rest)
    have hrest : ∀ o ∈ rest, collision_check bx bY o = false :=
      fun o hm => h o (List.mem_cons_of_mem _ hm)
    simp [score_collide_loop, ho, ih hrest, List.countP_cons, Nat.add_comm]

/-- The loop reports death exactly when some obstacle collides. -/
theorem score_collide_loop_dead_iff {dt bx bY : ℚ} {l : List Obstacle} :
    (score_collide_loop dt bx bY l).2 = true ↔ ∃ o ∈ l, collision_check bx bY o = true := by
  induction l with
  | nil => simp [score_collide_loop]
  | cons o rest ih =>
    cases hc : collision_check bx bY o with
    | false => simp [score_collide_loop, hc, ih]
    | true => simp [score_collide_loop, hc]

/-- Unfolding `update_bird` in the alive, playing, above-the-death-boundary
case. -/
theorem update_bird_playing {s : GameState} {b : Bird}
    (hb : s.bird = some b) (hp : s.paused = false)
    (dt : ℚ) (flap : Bool) (draws : ℕ → ℚ) (win_x win_y : ℚ)
    (hy : ¬ (integrate dt flap b).y ≤ -win_y / 2) :
    update_bird dt flap draws win_x win_y s =
      { s with
        bird := some (integrate dt flap b)
        score := s.score + (score_collide_loop dt 0 (integrate dt flap b).y s.obstacles).1
        paused := (score_collide_loop dt 0 (integrate dt flap b).y s.obstacles).2 } := by
  simp [update_bird, hb, hp, hy]

/-- While playing with a live bird, `update_bird` always stores the
integrated bird back, whether or not death occurs. -/
theorem update_bird_playing_bird {s : GameState} {b : Bird}
    (hb : s.bird = some b) (hp : s.paused = false)
    (dt : ℚ) (flap : Bool) (draws : ℕ → ℚ) (win_x win_y : ℚ) :
    (update_bird dt flap draws win_x win_y s).bird = some (integrate dt flap b) := by
  by_cases hy : (integrate dt flap b).y ≤ -win_y / 2
  · simp [update_bird, hb, hp, hy]
  · simp [update_bird, hb, hp, hy]

/-- `spawn_obstacles` always creates `2 * OBSTACLE_AMOUNT` obstacles. -/
theorem spawn_obstacles_length (draws : ℕ → ℚ) (w : ℚ) :
    (spawn_obstacles draws w).length = 2 * OBSTACLE_AMOUNT := by
  rfl

/-! ## Claim theorems -/

/-- C1: In a Playing frame with a live actor that neither falls past the
death boundary nor collides, the score increases by exactly the number of
obstacles whose horizontal position minus the actor position is strictly positive
and strictly below `OBSTACLE_SCROLL_SPEED * dt` and which are upper members
(direction `+1`): each qualifying obstacle contributes exactly 1
independently, and lower members (direction `-1`) contribute nothing.  The
source tests `pipe.y > 0` in place of the direction flag; the sign invariant
hypothesis (established by the C10 development) makes the two agree. -/
theorem score_increment_counts_upper_crossings
    (s : GameState) (b : Bird) (dt : ℚ) (flap : Bool) (draws : ℕ → ℚ) (win_x win_y : ℚ)
    (hb : s.bird = some b) (hp : s.paused = false)
    (hinv : ∀ o ∈ s.obstacles, signOK o ∧ dirOK o)
    (hy : -win_y / 2 < (integrate dt flap b).y)
    (hnc : ∀ o ∈ s.obstacles, collision_check 0 (integrate dt flap b).y o = false) :
    (update_bird dt flap draws win_x win_y s).score =
      s.score + s.obstacles.countP (fun o => decide (upper_crossing dt 0 o)) := by
  rw [update_bird_playing hb hp dt flap draws win_x win_y (not_le.mpr hy),
    @score_collide_loop_of_no_collision dt 0 (integrate dt flap b).y s.obstacles hnc]
  have hcount : s.obstacles.countP (passes_check dt 0) =
      s.obstacles.countP (fun o => decide (upper_crossing dt 0 o)) := by
    refine List.countP_congr (fun o ho => ?_)
    rw [passes_check_eq_upper (hinv o ho).1 (hinv o ho).2]
  simp [hcount]

/-- A concrete Playing frame: actor at `y = 0`, one pair at `x = 5`
(so `0 < 5 < OBSTACLE_SCROLL_SPEED * (1/10) = 12`), no collision; only the
upper member scores. -/
def stateA : GameState :=
  ⟨some ⟨0, 0⟩, [⟨5, 396, 1⟩, ⟨5, -396, -1⟩], 0, false⟩

theorem score_increment_counts_upper_crossings_witness :
    (update_bird (1 / 10) false (fun _ => 0) 1280 720 stateA).score = stateA.score + 1 := by
  have h := score_increment_counts_upper_crossings stateA ⟨0, 0⟩ (1 / 10) false
    (fun _ => 0) 1280 720 rfl rfl
    (by intro o ho
        simp only [stateA, List.mem_cons, List.not_mem_nil, or_false] at ho
        rcases ho with rfl | rfl
        · exact ⟨⟨fun _ => by norm_num, fun hh => by norm_num at hh⟩, Or.inl rfl⟩
        · exact ⟨⟨fun hh => by norm_num at hh, fun _ => by norm_num⟩, Or.inr rfl⟩)
    (by norm_num [integrate, GRAVITY, FLAP_FORCE, stateA])
    (by intro o ho
        simp only [stateA, List.mem_cons, List.not_mem_nil, or_false] at ho
        rcases ho with rfl | rfl
        · simp only [collision_check, integrate, stateA, Bool.and_eq_false_iff,
            decide_eq_false_iff_not]
          left
          norm_num [OBSTACLE_HEIGHT, MERCY_ZONE, PIXEL_SCALE, GRAVITY, FLAP_FORCE]
        · simp only [collision_check, integrate, stateA, Bool.and_eq_false_iff,
            decide_eq_false_iff_not]
          left
          norm_num [OBSTACLE_HEIGHT, MERCY_ZONE, PIXEL_SCALE, GRAVITY, FLAP_FORCE])
  rw [h]
  have hc : stateA.obstacles.countP (fun o => decide (upper_crossing (1 / 10) 0 o)) = 1 := by
    simp only [stateA, List.countP_cons, List.countP_nil, upper_crossing,
      decide_eq_true_eq]
    norm_num [OBSTACLE_SCROLL_SPEED]
  rw [hc]

/-- C2: In a Playing frame with a live actor above the death boundary, the
frame ends Paused (death) exactly when some obstacle is closer to the actor
than `(obstacleHeight − mercyMargin) / 2` vertically and
`(obstacleWidth − mercyMargin) / 2` horizontally (world-unit constants, i.e.
the configured sprite constants scaled by `PIXEL_SCALE`), with both
inequalities strict, so boundary values where a distance equals its
threshold do not trigger death. -/
theorem collision_death_iff
    (s : GameState) (b : Bird) (dt : ℚ) (flap : Bool) (draws : ℕ → ℚ) (win_x win_y : ℚ)
    (hb : s.bird = some b) (hp : s.paused = false)
    (hy : -win_y / 2 < (integrate dt flap b).y) :
    (update_bird dt flap draws win_x win_y s).paused = true ↔
      ∃ o ∈ s.obstacles,
        |o.y - (integrate dt flap b).y| <
          (OBSTACLE_HEIGHT * PIXEL_SCALE - MERCY_ZONE * PIXEL_SCALE) / 2 ∧
        |o.x - 0| < (OBSTACLE_WIDTH * PIXEL_SCALE - MERCY_ZONE * PIXEL_SCALE) / 2 := by
  rw [update_bird_playing hb hp dt flap draws win_x win_y (not_le.mpr hy)]
  have hH : (OBSTACLE_HEIGHT * PIXEL_SCALE - MERCY_ZONE * PIXEL_SCALE) / 2 =
      (OBSTACLE_HEIGHT - MERCY_ZONE) * PIXEL_SCALE / 2 := by ring
  have hW : (OBSTACLE_WIDTH * PIXEL_SCALE - MERCY_ZONE * PIXEL_SCALE) / 2 =
      (OBSTACLE_WIDTH - MERCY_ZONE) * PIXEL_SCALE / 2 := by ring
  simp only [score_collide_loop_dead_iff, collision_check, Bool.and_eq_true,
    decide_eq_true_eq, hH, hW]

/-- A concrete boundary frame: the obstacle sits at exactly the vertical
death threshold `(144 − 5) * 4.5 / 2 = 1251/4` above the actor, and
directly over it horizontally; the strict inequality means no death. -/
def stateB : GameState :=
  ⟨some ⟨0, 0⟩, [⟨0, 1251 / 4, 1⟩], 0, false⟩

theorem collision_death_iff_witness :
    ((update_bird 0 false (fun _ => 0) 1280 720 stateB).paused = true ↔
      ∃ o ∈ stateB.obstacles,
        |o.y - (integrate 0 false ⟨0, 0⟩).y| <
          (OBSTACLE_HEIGHT * PIXEL_SCALE - MERCY_ZONE * PIXEL_SCALE) / 2 ∧
        |o.x - 0| < (OBSTACLE_WIDTH * PIXEL_SCALE - MERCY_ZONE * PIXEL_SCALE) / 2) :=
  collision_death_iff stateB ⟨0, 0⟩ 0 false (fun _ => 0) 1280 720 rfl rfl
    (by norm_num [integrate, GRAVITY, FLAP_FORCE])

/-- C3 counterexample: a Paused state with no live bird (the normal Paused
situation, since `show_pause_screen` despawns the bird while paused) and
`Score = 7`.  A flap edge does not trigger the reset: the update only spawns
a default bird, the score stays 7 and the phase stays Paused — refuting
"for every Paused state, a flap edge triggers a Reset". -/
def stateC : GameState := ⟨none, [⟨640, 396, 1⟩], 7, true⟩

theorem flap_while_paused_headless_does_not_reset :
    stateC.paused = true ∧
    (update_bird 1 true (fun _ => 0) 1280 720 stateC).score = 7 ∧
    (update_bird 1 true (fun _ => 0) 1280 720 stateC).paused = true :=
  ⟨rfl, rfl, rfl⟩

/-- C3 (amended): for every Paused state in which a live Actor exists, a
flap edge triggers the Reset: the post-state has Score 0, phase Playing,
exactly one actor at the initial position `y = 0` with velocity 0, and the
obstacle field despawned and reinitialized by `spawn_obstacles` (hence
`OBSTACLE_AMOUNT` pairs). -/
theorem reset_on_flap_with_live_actor
    (s : GameState) (b : Bird) (dt : ℚ) (draws : ℕ → ℚ) (win_x win_y : ℚ)
    (hb : s.bird = some b) (hp : s.paused = true) :
    update_bird dt true draws win_x win_y s =
      { bird := some ⟨0, 0⟩
        obstacles := spawn_obstacles draws win_x
        score := 0
        paused := false } ∧
    (spawn_obstacles draws win_x).length = 2 * OBSTACLE_AMOUNT := by
  constructor
  · simp [update_bird, hb, hp, reset_game]
  · exact spawn_obstacles_length draws win_x

theorem reset_on_flap_with_live_actor_witness :
    update_bird 1 true (fun _ => 0) 1280 720 ⟨some ⟨-50, 99⟩, [⟨640, 396, 1⟩], 7, true⟩ =
      { bird := some ⟨0, 0⟩
        obstacles := spawn_obstacles (fun _ => 0) 1280
        score := 0
        paused := false } ∧
    (spawn_obstacles (fun _ => (0 : ℚ)) 1280).length = 2 * OBSTACLE_AMOUNT :=
  reset_on_flap_with_live_actor ⟨some ⟨-50, 99⟩, [⟨640, 396, 1⟩], 7, true⟩ ⟨-50, 99⟩ 1
    (fun _ => 0) 1280 720 rfl rfl

/-- C4 counterexample: a Paused state with no live bird.  Running
`update_bird` (no flap edge) spawns a default actor even though the phase is
Paused, refuting "no frame update performed while Paused creates an Actor"
(and hence "Paused implies no live Actor" over reachable states, since the
pause flag is unchanged). -/
def stateD : GameState := ⟨none, [], 3, true⟩

theorem paused_update_creates_actor :
    stateD.paused = true ∧ stateD.bird = none ∧
    (update_bird 1 false (fun _ => 0) 1280 720 stateD).bird = some ⟨0, 0⟩ ∧
    (update_bird 1 false (fun _ => 0) 1280 720 stateD).paused = true :=
  ⟨rfl, rfl, rfl, rfl⟩

/-- C4 (amended): the actor/phase discipline the code actually maintains.
While Paused, `show_pause_screen` removes any live actor; a Playing
`update_bird` with a live actor keeps exactly one live actor (the integrated
one); but `update_bird` run with no live actor creates a default actor
regardless of the phase — its self-heal guard does not consult the pause
flag, so Paused states with a live actor do occur between the two systems. -/
theorem phase_actor_discipline :
    (∀ s : GameState, s.paused = true → (show_pause_screen s).bird = none) ∧
    (∀ (s : GameState) (b : Bird) (dt : ℚ) (flap : Bool) (draws : ℕ → ℚ)
        (win_x win_y : ℚ), s.bird = some b → s.paused = false →
        (update_bird dt flap draws win_x win_y s).bird = some (integrate dt flap b)) ∧
    (∀ (s : GameState) (dt : ℚ) (flap : Bool) (draws : ℕ → ℚ) (win_x win_y : ℚ),
        s.bird = none →
        (update_bird dt flap draws win_x win_y s).bird = some spawn_bird) := by
  refine ⟨?_, ?_, ?_⟩
  · intro s hp
    simp [show_pause_screen, hp]
  · intro s b dt flap draws win_x win_y hb hp
    exact update_bird_playing_bird hb hp dt flap draws win_x win_y
  · intro s dt flap draws win_x win_y hb
    simp [update_bird, hb]

theorem phase_actor_discipline_witness :
    (show_pause_screen ⟨some ⟨1, 2⟩, [], 5, true⟩).bird = none ∧
    (update_bird 1 false (fun _ => 0) 1280 720 ⟨some ⟨0, 100⟩, [], 5, false⟩).bird =
      some (integrate 1 false ⟨0, 100⟩) ∧
    (update_bird 1 true (fun _ => 0) 1280 720 ⟨none, [], 5, true⟩).bird =
      some spawn_bird :=
  ⟨phase_actor_discipline.1 ⟨some ⟨1, 2⟩, [], 5, true⟩ rfl,
   phase_actor_discipline.2.1 ⟨some ⟨0, 100⟩, [], 5, false⟩ ⟨0, 100⟩ 1 false
     (fun _ => 0) 1280 720 rfl rfl,
   phase_actor_discipline.2.2 ⟨none, [], 5, true⟩ 1 true (fun _ => 0) 1280 720 rfl⟩

/-- C7: In a Playing frame with a live actor whose post-integration vertical
position is at or below `-win_y / 2`, the actor is dead: the scoring loop is
skipped (the score is unchanged) and the phase at the next frame is Paused. -/
theorem boundary_death_pauses
    (s : GameState) (b : Bird) (dt : ℚ) (flap : Bool) (draws : ℕ → ℚ) (win_x win_y : ℚ)
    (hb : s.bird = some b) (hp : s.paused = false)
    (hy : (integrate dt flap b).y ≤ -win_y / 2) :
    (update_bird dt flap draws win_x win_y s).paused = true ∧
    (update_bird dt flap draws win_x win_y s).score = s.score := by
  constructor <;> simp [update_bird, hb, hp, hy]

theorem boundary_death_pauses_witness :
    (update_bird 1 false (fun _ => 0) 1280 720 ⟨some ⟨0, 0⟩, [], 4, false⟩).paused = true ∧
    (update_bird 1 false (fun _ => 0) 1280 720 ⟨some ⟨0, 0⟩, [], 4, false⟩).score = 4 :=
  boundary_death_pauses ⟨some ⟨0, 0⟩, [], 4, false⟩ ⟨0, 0⟩ 1 false (fun _ => 0) 1280 720
    rfl rfl (by norm_num [integrate, GRAVITY, FLAP_FORCE])

/-- C8: In a Playing frame with a flap edge, the actor velocity is set to
exactly `FLAP_FORCE` before gravity integration, replacing the prior
velocity: the stored bird is `⟨FLAP_FORCE - dt * GRAVITY,
y + (FLAP_FORCE - dt * GRAVITY) * dt⟩`, independent of the sign and magnitude of `b.velocity`. -/
theorem flap_overrides_velocity
    (s : GameState) (b : Bird) (dt : ℚ) (draws : ℕ → ℚ) (win_x win_y : ℚ)
    (hb : s.bird = some b) (hp : s.paused = false) :
    (update_bird dt true draws win_x win_y s).bird =
      some ⟨FLAP_FORCE - dt * GRAVITY, b.y + (FLAP_FORCE - dt * GRAVITY) * dt⟩ := by
  rw [update_bird_playing_bird hb hp dt true draws win_x win_y]
  simp [integrate]

theorem flap_overrides_velocity_witness :
    (update_bird 1 true (fun _ => 0) 1280 720 ⟨some ⟨-123, 5⟩, [], 0, false⟩).bird =
      some ⟨FLAP_FORCE - 1 * GRAVITY, 5 + (FLAP_FORCE - 1 * GRAVITY) * 1⟩ :=
  flap_overrides_velocity ⟨some ⟨-123, 5⟩, [], 0, false⟩ ⟨-123, 5⟩ 1 (fun _ => 0)
    1280 720 rfl rfl

/-- C9: In a Paused state with no live actor, `update_bird` does not perform
the Reset, whatever the flap input: it only spawns a default actor (velocity
0 at the default position), leaving the score, every obstacle and the paused
clock unchanged — so the Reset transition fires only when a live actor
exists while Paused. -/
theorem headless_paused_update_spawns_default
    (s : GameState) (dt : ℚ) (flap : Bool) (draws : ℕ → ℚ) (win_x win_y : ℚ)
    (hb : s.bird = none) (_hp : s.paused = true) :
    update_bird dt flap draws win_x win_y s = { s with bird := some spawn_bird } := by
  simp [update_bird, hb]

theorem headless_paused_update_spawns_default_witness :
    update_bird 0 true (fun _ => 0) 1280 720 ⟨none, [⟨1, 2, 1⟩], 7, true⟩ =
      { bird := some spawn_bird, obstacles := [⟨1, 2, 1⟩], score := 7, paused := true } :=
  headless_paused_update_spawns_default ⟨none, [⟨1, 2, 1⟩], 7, true⟩ 0 true
    (fun _ => 0) 1280 720 rfl rfl

/-- C5: In a frame update of the obstacle field, an obstacle whose
post-scroll right edge is past the left world boundary has its horizontal
position increased by exactly one lattice period
`OBSTACLE_AMOUNT * OBSTACLE_SPACING * PIXEL_SCALE` (pairCount × spacing in
world units, so horizontal position modulo the period is preserved) and its
vertical position reassigned to `get_centered_pos * pipe_direction` plus the
single per-frame fresh offset draw — the same `draw` for every obstacle
recycling this frame, since the theorem fixes one `draw` for the whole list.
An obstacle not past the boundary only scrolls left by
`dt * OBSTACLE_SCROLL_SPEED`. -/
theorem update_obstacles_elementwise
    (dt win_x draw : ℚ) (obs : List Obstacle) (i : ℕ) (o : Obstacle)
    (ho : obs[i]? = some o) :
    (o.x - dt * OBSTACLE_SCROLL_SPEED + OBSTACLE_WIDTH * PIXEL_SCALE / 2 < -win_x / 2 →
      (update_obstacles dt win_x draw obs)[i]? =
        some ⟨o.x - dt * OBSTACLE_SCROLL_SPEED +
                (OBSTACLE_AMOUNT : ℚ) * OBSTACLE_SPACING * PIXEL_SCALE,
              get_centered_pos * o.pipe_direction + generate_offset draw,
              o.pipe_direction⟩) ∧
    (¬ (o.x - dt * OBSTACLE_SCROLL_SPEED + OBSTACLE_WIDTH * PIXEL_SCALE / 2 < -win_x / 2) →
      (update_obstacles dt win_x draw obs)[i]? =
        some ⟨o.x - dt * OBSTACLE_SCROLL_SPEED, o.y, o.pipe_direction⟩) := by
  constructor <;> intro h <;>
    simp [update_obstacles, ho, scroll_recycle, h]

theorem update_obstacles_elementwise_witness :
    (update_obstacles 1 1280 0 [⟨-600, 396, 1⟩])[0]? =
      some ⟨(-600 : ℚ) - 1 * OBSTACLE_SCROLL_SPEED +
              (OBSTACLE_AMOUNT : ℚ) * OBSTACLE_SPACING * PIXEL_SCALE,
            get_centered_pos * 1 + generate_offset 0, 1⟩ :=
  (update_obstacles_elementwise 1 1280 0 [⟨-600, 396, 1⟩] 0 ⟨-600, 396, 1⟩ rfl).1
    (by norm_num [OBSTACLE_SCROLL_SPEED, OBSTACLE_WIDTH, PIXEL_SCALE])

/-- C6: The obstacle count is `2 * OBSTACLE_AMOUNT` and constant:
initialization creates exactly `OBSTACLE_AMOUNT` pairs, and the per-frame
update maps over the pool without creating or destroying an obstacle. -/
theorem obstacle_count_invariant :
    (∀ (draws : ℕ → ℚ) (w : ℚ), (spawn_obstacles draws w).length = 2 * OBSTACLE_AMOUNT) ∧
    (∀ (dt win_x draw : ℚ) (obs : List Obstacle),
        (update_obstacles dt win_x draw obs).length = obs.length) :=
  ⟨spawn_obstacles_length, fun dt win_x draw obs => by simp [update_obstacles]⟩

/-- C10: The vertical position of each obstacle has the sign of its direction
flag — upper members (direction `+1`) sit strictly above 0, lower members
(direction `-1`) strictly below — provided the raw random draws stay in the
`gen_range` interval `[-OBSTACLE_VERTICAL_OFFSET, OBSTACLE_VERTICAL_OFFSET)`.
The invariant holds at initialization, is preserved by every obstacle-field
update including recycling, and under it the scoring test `pipe.y > 0`
agrees with the upper-member condition `pipe_direction = 1`. -/
theorem obstacle_sign_invariant :
    (∀ (draws : ℕ → ℚ) (w : ℚ),
        (∀ i, -OBSTACLE_VERTICAL_OFFSET ≤ draws i ∧ draws i < OBSTACLE_VERTICAL_OFFSET) →
        ∀ o ∈ spawn_obstacles draws w, signOK o ∧ dirOK o) ∧
    (∀ (dt win_x draw : ℚ) (obs : List Obstacle),
        -OBSTACLE_VERTICAL_OFFSET ≤ draw → draw < OBSTACLE_VERTICAL_OFFSET →
        (∀ o ∈ obs, signOK o) →
        ∀ o ∈ update_obstacles dt win_x draw obs, signOK o) ∧
    (∀ o : Obstacle, signOK o → dirOK o → (0 < o.y ↔ o.pipe_direction = 1)) := by
  refine ⟨?_, ?_, fun o hs hd => y_pos_iff_upper hs hd⟩
  · intro draws w hr o ho
    simp only [spawn_obstacles, List.mem_flatMap, List.mem_range, obstacle_pair,
      List.mem_cons, List.not_mem_nil, or_false] at ho
    obtain ⟨i, _, hcase⟩ := ho
    have h1 := (hr i).1
    have h2 := (hr i).2
    simp only [OBSTACLE_VERTICAL_OFFSET] at h1 h2
    rcases hcase with rfl | rfl
    · refine ⟨⟨fun _ => ?_, fun hc => ?_⟩, Or.inl rfl⟩
      · show 0 < get_centered_pos + generate_offset (draws i)
        simp only [get_centered_pos, generate_offset, OBSTACLE_HEIGHT, OBSTACLE_GAP,
          PIXEL_SCALE]
        linarith
      · exact absurd hc (by norm_num)
    · refine ⟨⟨fun hc => ?_, fun _ => ?_⟩, Or.inr rfl⟩
      · exact absurd hc (by norm_num)
      · show -get_centered_pos + generate_offset (draws i) < 0
        simp only [get_centered_pos, generate_offset, OBSTACLE_HEIGHT, OBSTACLE_GAP,
          PIXEL_SCALE]
        linarith
  · intro dt win_x draw obs h1 h2 hall o ho
    simp only [OBSTACLE_VERTICAL_OFFSET] at h1 h2
    simp only [update_obstacles, List.mem_map] at ho
    obtain ⟨o0, ho0, rfl⟩ := ho
    unfold scroll_recycle
    by_cases hc : o0.x - dt * OBSTACLE_SCROLL_SPEED + OBSTACLE_WIDTH * PIXEL_SCALE / 2 <
        -win_x / 2
    · simp only [if_pos hc]
      refine ⟨fun hd => ?_, fun hd => ?_⟩
      · show 0 < get_centered_pos * o0.pipe_direction + generate_offset draw
        rw [hd]
        simp only [get_centered_pos, generate_offset, OBSTACLE_HEIGHT, OBSTACLE_GAP,
          PIXEL_SCALE]
        linarith
      · show get_centered_pos * o0.pipe_direction + generate_offset draw < 0
        rw [hd]
        simp only [get_centered_pos, generate_offset, OBSTACLE_HEIGHT, OBSTACLE_GAP,
          PIXEL_SCALE]
        linarith
    · simp only [if_neg hc]
      exact hall o0 ho0

theorem obstacle_sign_invariant_witness :
    (signOK ⟨640, 396, 1⟩ ∧ dirOK ⟨640, 396, 1⟩) ∧ ((0 : ℚ) < 396 ↔ (1 : ℚ) = 1) :=
  ⟨obstacle_sign_invariant.1 (fun _ => 0) 1280
    (fun _ => ⟨by norm_num [OBSTACLE_VERTICAL_OFFSET],
               by norm_num [OBSTACLE_VERTICAL_OFFSET]⟩)
    ⟨640, 396, 1⟩
    (by
      refine List.mem_flatMap.mpr
        ⟨0, List.mem_range.mpr (by norm_num [OBSTACLE_AMOUNT]), ?_⟩
      simp only [obstacle_pair, generate_offset, get_centered_pos, OBSTACLE_SPACING,
        PIXEL_SCALE, OBSTACLE_HEIGHT, OBSTACLE_GAP, List.mem_cons, List.not_mem_nil,
        or_false, Obstacle.mk.injEq]
      left
      norm_num),
   obstacle_sign_invariant.2.2 ⟨640, 396, 1⟩
     ⟨fun _ => by norm_num, fun hc => by norm_num at hc⟩ (Or.inl rfl)⟩

end Flapp
